import Mathlib

/-!
Shallow embedding of `lib/authn/impl.go` from cviecco/ldap-group-management.

The package implements a stateless web-authentication gateway: a session
cookie carrying a signed JWT, a short-lived state token for the OAuth2
redirect dance, a token codec trying an ordered list of shared secrets, and
an identity-resolution entry point that also honours TLS client
certificates.

Modelling conventions:
* HMAC-signed compact JWTs are modelled as a record of the claims together
  with the signing key; signature verification with key `k` succeeds exactly
  when `k` equals the key the token was signed with, and compact
  serialization is treated as the (injective) identity, so a cookie or
  state value is either a raw string that is not a compact JWT at all, or a
  parsed signed token.
* `time.Now().Unix()` is threaded as an explicit `now : Int` parameter.
* Go errors are an inductive type with one constructor per distinct error
  value produced by the source, so different error values stay
  distinguishable; a Go `panic` (index out of range) is a dedicated
  `GoResult.panic` outcome distinct from an error return.
* The two outbound HTTP POSTs of the callback handler are an oracle
  (`Network`), and the handler also returns the list of network calls it
  performed, in order, so temporal claims about the exchange can be stated.
-/

namespace Authn

/-- Go errors that appear in `lib/authn/impl.go`, one constructor per
distinct error value so they remain distinguishable. -/
inductive AuthError where
  /-- any error returned by `tok.Claims(binkey, dest...)` inside `JWTClaims`:
  a jose signature-verification or claims-decoding failure for one key -/
  | claimsVerifyError : AuthError
  /-- Go `errors.New("No valid key found")` at the end of `JWTClaims` -/
  | noValidKey : AuthError
  /-- Go `errors.New("invalid authenticator state, no shared secrets")` -/
  | noSharedSecrets : AuthError
  /-- Go `errors.New("null inbound state")` in `getVerifyReturnStateJWT` -/
  | nullInboundState : AuthError
  /-- error from `jwt.ParseSigned` on a string that is not a compact JWT -/
  | parseError : AuthError
  /-- Go `errors.New("invalid JWT values")` in `getVerifyReturnStateJWT` -/
  | invalidJWTValues : AuthError
  /-- Go `errors.New("bad cookie Vauue state")` in `validateUserCookieValue` -/
  | badCookieValueState : AuthError
  /-- the `http.ErrNoCookie` error from `r.Cookie` when the cookie is absent -/
  | noCookie : AuthError
  /-- Go `errors.New("Invalid Cookie Value")` in `getRemoteUserName` -/
  | invalidCookieValue : AuthError
  /-- an error returned by the injected `setHeadersFunc` -/
  | setHeadersError : AuthError
deriving DecidableEq, Repr

/-- Outcome of a Go function returning `(T, error)` where we also track the
possibility of a runtime panic (index out of range). -/
inductive GoResult (α : Type) where
  | panicked : GoResult α
  | ok : α → GoResult α
  | err : AuthError → GoResult α
deriving DecidableEq, Repr

/-- Go struct `oauth2StateJWT`: claims of the login-state token. -/
structure Oauth2StateJWT where
  Issuer : String
  Subject : String
  Audience : List String
  Expiration : Int
  NotBefore : Int
  IssuedAt : Int
  ReturnURL : String
deriving DecidableEq, Repr

/-- Go struct `authNCookieJWT`: claims of the session-cookie token. -/
structure AuthNCookieJWT where
  Issuer : String
  Subject : String
  Username : String
  Audience : List String
  Expiration : Int
  NotBefore : Int
  IssuedAt : Int
deriving DecidableEq, Repr

/-- Go struct `openidConnectUserInfo`. -/
structure OpenidConnectUserInfo where
  Subject : String
  Name : String
  Login : String
  Username : String
  PreferredUsername : String
  Email : String
deriving DecidableEq, Repr

/-- Go struct `accessToken`: decoded body of the token-endpoint response. -/
structure AccessTokenResp where
  AccessToken : String
  TokenType : String
  ExpiresIn : Int
  IDToken : String
deriving DecidableEq, Repr

/-- An HMAC-signed compact JWT over claims `C`: the claims plus the key it
was signed with (the signature is determined by payload and key, and
verification with key `k` succeeds iff `k` is that key). -/
structure SignedJWT (C : Type) where
  claims : C
  key : String
deriving DecidableEq, Repr

/-- A string arriving as a cookie value or `state` query parameter: either
a raw string that is not a compact JWT serialization (this includes the
empty string), or the compact serialization of a signed token. -/
inductive TokenString (C : Type) where
  | raw : String → TokenString C
  | tok : SignedJWT C → TokenString C
deriving DecidableEq, Repr

/-- Go check `len(value) < 1` on the carried string. A compact JWT serialization is
never empty (it contains two dots and a base64 header). -/
def TokenString.isEmptyStr {C : Type} : TokenString C → Bool
  | .raw s => s.isEmpty
  | .tok _ => false

/-- Go call `jwt.ParseSigned`: fails on anything that is not a compact JWT; parsing
does not check the signature. -/
def parseSigned {C : Type} : TokenString C → Except AuthError (SignedJWT C)
  | .raw _ => .error .parseError
  | .tok t => .ok t

/-- Go call `tok.Claims(binkey, &dest)`: verifies the signature with one key and on
success decodes the claims into `dest`. -/
def joseClaims {C : Type} (t : SignedJWT C) (key : String) : Except AuthError C :=
  if key = t.key then .ok t.claims else .error .claimsVerifyError

/-- The `Authenticator` receiver struct (defined elsewhere in the package;
the fields are those `impl.go` uses). `setHeadersFunc`: `none` models a nil
function pointer, `some r` an injected function whose call returns `r`. -/
structure Authenticator where
  sharedSecrets : List String
  appName : String
  setHeadersFunc : Option (Option AuthError) := none
deriving DecidableEq, Repr

/-- Name of the authentication cookie, `AuthCookieName`, a package constant
defined outside `impl.go`; only its fixed value matters here. -/
def AuthCookieName : String := "auth_cookie"

/-- Go constant `redirCookieName`. -/
def redirCookieName : String := "redir_cookie"

/-- Go constant `maxAgeSecondsRedirCookie`. -/
def maxAgeSecondsRedirCookie : Int := 300

/-- Go constant `cookieExpirationHours`. -/
def cookieExpirationHours : Int := 2

/-- The loop body of `JWTClaims`: Go's named return `err` starts out nil and
is overwritten by each attempt; the accumulator holds its current value. -/
def JWTClaimsLoop {C : Type} (t : SignedJWT C) :
    List String → Option AuthError → Except AuthError C
  | [], none => .error .noValidKey
  | [], some e => .error e
  | key :: rest, _ =>
    match joseClaims t key with
    | .ok c => .ok c
    | .error e => JWTClaimsLoop t rest (some e)

/-- Go `func (s *Authenticator) JWTClaims(t *jwt.JSONWebToken, dest ...interface\x7b\x7d) (err error)`:
tries each shared secret in order; on the first success returns nil (claims
decoded into dest); after the loop returns the last error if any attempt
ran, else `"No valid key found"`. On success the decoded claims are
returned in place of writing `dest`. -/
def Authenticator.JWTClaims {C : Type} (s : Authenticator) (t : SignedJWT C) :
    Except AuthError C :=
  JWTClaimsLoop t s.sharedSecrets none

/-- Go `func (a *Authenticator) genUserCookieValue(username string, expires time.Time) (string, error)`.
`a.sharedSecrets[0]` panics when the slice is empty; otherwise an empty
first secret yields the "no shared secrets" error; otherwise the claims are
signed with the first secret. `now` models `time.Now().Unix()`. -/
def Authenticator.genUserCookieValue (a : Authenticator) (username : String)
    (expires : Int) (now : Int) : GoResult (SignedJWT AuthNCookieJWT) :=
  match a.sharedSecrets with
  | [] => .panicked
  | secret0 :: _ =>
    if secret0.length < 1 then .err .noSharedSecrets
    else
      .ok { claims := { Issuer := a.appName
                        Subject := "state:" ++ AuthCookieName
                        Username := username
                        Audience := [a.appName]
                        Expiration := expires
                        NotBefore := now
                        IssuedAt := now }
            key := secret0 }

/-- Go `func (s *Authenticator) generateValidStateString(r *http.Request) (string, error)`:
same secret handling as `genUserCookieValue`; the claims carry the
request's URL as return-URL and expire `maxAgeSecondsRedirCookie` seconds
from now. -/
def Authenticator.generateValidStateString (s : Authenticator) (now : Int)
    (requestURL : String) : GoResult (SignedJWT Oauth2StateJWT) :=
  match s.sharedSecrets with
  | [] => .panicked
  | secret0 :: _ =>
    if secret0.length < 1 then .err .noSharedSecrets
    else
      .ok { claims := { Issuer := s.appName
                        Subject := "state:" ++ redirCookieName
                        Audience := [s.appName]
                        Expiration := now + maxAgeSecondsRedirCookie
                        NotBefore := now
                        IssuedAt := now
                        ReturnURL := requestURL }
            key := secret0 }

/-- Go `func getUsernameFromUserinfo(userInfo openidConnectUserInfo) string`:
sequential reassignment, each step replacing an empty result by the next
candidate field. -/
def getUsernameFromUserinfo (userInfo : OpenidConnectUserInfo) : String :=
  let username := userInfo.Username
  let username := if username.length < 1 then userInfo.Login else username
  let username := if username.length < 1 then userInfo.PreferredUsername else username
  let username := if username.length < 1 then userInfo.Email else username
  username

/-- Go `func (s *Authenticator) validateUserCookieValue(remoteCookieValue string) (string, error)`:
returns `("", nil)` for an empty value, an unparsable value, a signature
that validates under no secret, or failed issuer/subject/not-before/
expiration checks; returns a non-nil error only when everything validates
but the embedded username is empty. The pair models Go's `(string, error)`
return, the second component `none` standing for a nil error. -/
def Authenticator.validateUserCookieValue (s : Authenticator) (now : Int)
    (remoteCookieValue : TokenString AuthNCookieJWT) : String × Option AuthError :=
  if remoteCookieValue.isEmptyStr then ("", none)
  else
    match parseSigned remoteCookieValue with
    | .error _ => ("", none)
    | .ok tok =>
      match s.JWTClaims tok with
      | .error _ => ("", none)
      | .ok inboundJWT =>
        if inboundJWT.Issuer ≠ s.appName ∨ inboundJWT.Subject ≠ "state:" ++ AuthCookieName ∨
            inboundJWT.NotBefore > now ∨ inboundJWT.Expiration < now then
          ("", none)
        else if inboundJWT.Username.length < 1 then
          ("", some .badCookieValueState)
        else
          (inboundJWT.Username, none)

/-- Go `func (s *Authenticator) getVerifyReturnStateJWT(r *http.Request) (oauth2StateJWT, error)`:
the `state` query parameter must be non-empty, parse as a compact JWT,
verify under some shared secret, and carry the expected issuer, subject and
time window; every failure is an error. -/
def Authenticator.getVerifyReturnStateJWT (s : Authenticator) (now : Int)
    (serializedState : TokenString Oauth2StateJWT) : Except AuthError Oauth2StateJWT :=
  if serializedState.isEmptyStr then .error .nullInboundState
  else
    match parseSigned serializedState with
    | .error e => .error e
    | .ok tok =>
      match s.JWTClaims tok with
      | .error e => .error e
      | .ok inboundJWT =>
        if inboundJWT.Issuer ≠ s.appName ∨ inboundJWT.Subject ≠ "state:" ++ redirCookieName ∨
            inboundJWT.NotBefore > now ∨ inboundJWT.Expiration < now then
          .error .invalidJWTValues
        else
          .ok inboundJWT

/-- The inbound callback request, as the handler reads it: HTTP method,
the `code` and `state` query parameters (`""` respectively `.raw ""` when
missing), and the host (used only to rebuild the redirect URL). -/
structure CallbackRequest where
  method : String
  code : String
  state : TokenString Oauth2StateJWT
  host : String
deriving DecidableEq, Repr

/-- Oracle for the two outbound POSTs of the callback handler. For each
endpoint: `.error ()` models `getBytesFromSuccessfullPost` failing (network
error or HTTP status ≥ 300); `.ok none` a 2xx body on which
`json.Unmarshal` fails; `.ok (some v)` a 2xx body decoding to `v`. -/
instance exceptDecEq {ε α : Type} [DecidableEq ε] [DecidableEq α] :
    DecidableEq (Except ε α) := fun a b =>
  match a, b with
  | .error e1, .error e2 =>
    if h : e1 = e2 then .isTrue (by simp [h]) else .isFalse (by simp [h])
  | .error _, .ok _ => .isFalse (by simp)
  | .ok _, .error _ => .isFalse (by simp)
  | .ok v1, .ok v2 =>
    if h : v1 = v2 then .isTrue (by simp [h]) else .isFalse (by simp [h])

structure Network where
  tokenPost : Except Unit (Option AccessTokenResp)
  userinfoPost : Except Unit (Option OpenidConnectUserInfo)
deriving DecidableEq, Repr

/-- An outbound network call the callback handler can perform. -/
inductive NetCall where
  | tokenExchange : NetCall
  | userinfoFetch : NetCall
deriving DecidableEq, Repr

/-- Observable outcome of `oauth2RedirectPathHandler`: an HTTP error with
its status code, a panic, or the success path, which sets the session
cookie for `cookieUser` and 302-redirects to `dest`. -/
inductive CallbackOutcome where
  | httpError : Nat → CallbackOutcome
  | panicked : CallbackOutcome
  | redirect : (dest : String) → (cookieUser : String) → CallbackOutcome
deriving DecidableEq, Repr

/-- Go `func (s *Authenticator) oauth2RedirectPathHandler(w http.ResponseWriter, r *http.Request)`,
returning the observable outcome together with the ordered list of network
calls performed. Mirrors the source: method check, `code` check, state
verification, token exchange (POST, unmarshal, `Bearer`/non-empty checks),
userinfo fetch (POST, unmarshal), username derivation,
`setAndStoreAuthCookie` (expiry `now + 2h`, via `genUserCookieValue`), and
the final redirect to the state token's return-URL. -/
def Authenticator.oauth2RedirectPathHandler (s : Authenticator) (now : Int)
    (r : CallbackRequest) (net : Network) : CallbackOutcome × List NetCall :=
  if r.method ≠ "GET" then (.httpError 405, [])
  else if r.code.length < 1 then (.httpError 401, [])
  else
    match s.getVerifyReturnStateJWT now r.state with
    | .error _ => (.httpError 401, [])
    | .ok inboundJWT =>
      match net.tokenPost with
      | .error _ => (.httpError 500, [.tokenExchange])
      | .ok none => (.httpError 500, [.tokenExchange])
      | .ok (some oauth2AccessToken) =>
        if oauth2AccessToken.TokenType ≠ "Bearer" ∨
            oauth2AccessToken.AccessToken.length < 1 then
          (.httpError 500, [.tokenExchange])
        else
          match net.userinfoPost with
          | .error _ => (.httpError 500, [.tokenExchange, .userinfoFetch])
          | .ok none => (.httpError 500, [.tokenExchange, .userinfoFetch])
          | .ok (some userInfo) =>
            let username := getUsernameFromUserinfo userInfo
            match s.genUserCookieValue username (now + 3600 * cookieExpirationHours) now with
            | .panicked => (.panicked, [.tokenExchange, .userinfoFetch])
            | .err _ => (.httpError 500, [.tokenExchange, .userinfoFetch])
            | .ok _ => (.redirect inboundJWT.ReturnURL username,
                        [.tokenExchange, .userinfoFetch])

/-- A certificate, reduced to the one field the code reads. -/
structure Cert where
  commonName : String
deriving DecidableEq, Repr

/-- Go field `r.TLS.VerifiedChains`, present when the request has TLS state. -/
structure TLSState where
  VerifiedChains : List (List Cert)
deriving DecidableEq, Repr

/-- A request as `getRemoteUserName` reads it: optional TLS state, the
session cookie if present (`r.Cookie(AuthCookieName)` errors when absent),
and the request URL (embedded in a fresh state token on redirect). -/
structure IdentRequest where
  tls : Option TLSState
  cookie : Option (TokenString AuthNCookieJWT)
  urlStr : String
deriving DecidableEq, Repr

/-- A response write performed by `getRemoteUserName` before returning. -/
inductive WriteAction where
  /-- Go call `http.Error(w, ..., http.StatusInternalServerError)` -/
  | http500 : WriteAction
  /-- 302 redirect into the login flow carrying a fresh state token -/
  | redirectLogin : SignedJWT Oauth2StateJWT → WriteAction
deriving DecidableEq, Repr

/-- Result of `getRemoteUserName`: either a panic, or the returned
`(username, error)` pair together with the response writes performed. -/
inductive IdentResult where
  | panicked : IdentResult
  | result : (username : String) → (err : Option AuthError) →
      (writes : List WriteAction) → IdentResult
deriving DecidableEq, Repr

/-- Go `func (s *Authenticator) oauth2DoRedirectoToProviderHandler(w, r)`:
mints a state token and redirects to the provider's authorize URL, or
writes a 500 when the state string cannot be generated. -/
def Authenticator.oauth2DoRedirectoToProviderHandler (s : Authenticator) (now : Int)
    (requestURL : String) : GoResult WriteAction :=
  match s.generateValidStateString now requestURL with
  | .panicked => .panicked
  | .err _ => .ok .http500
  | .ok st => .ok (.redirectLogin st)

/-- The part of `getRemoteUserName` after the TLS check: run
`setHeadersFunc` if set, look up the cookie (absent → redirect to login and
return the cookie error), validate it (fatal error → 500; empty username →
redirect to login with the "Invalid Cookie Value" error; else return the
username). -/
def Authenticator.getRemoteUserNameAfterTLS (s : Authenticator) (now : Int)
    (r : IdentRequest) : IdentResult :=
  match s.setHeadersFunc with
  | some (some _) => .result "" (some .setHeadersError) []
  | _ =>
    match r.cookie with
    | none =>
      match s.oauth2DoRedirectoToProviderHandler now r.urlStr with
      | .panicked => .panicked
      | .ok w => .result "" (some .noCookie) [w]
      | .err _ => .result "" (some .noCookie) []
    | some remoteCookie =>
      match s.validateUserCookieValue now remoteCookie with
      | (_, some e) => .result "" (some e) [.http500]
      | (username, none) =>
        if username = "" then
          match s.oauth2DoRedirectoToProviderHandler now r.urlStr with
          | .panicked => .panicked
          | .ok w => .result "" (some .invalidCookieValue) [w]
          | .err _ => .result "" (some .invalidCookieValue) []
        else
          .result username none []

/-- Go `func (s *Authenticator) getRemoteUserName(w http.ResponseWriter, r *http.Request) (string, error)`:
when the request carries TLS state with at least one verified chain, the
leaf certificate's subject common name is returned immediately with a nil
error (`VerifiedChains[0][0]` would panic on an empty first chain);
otherwise the cookie path of `getRemoteUserNameAfterTLS` runs. -/
def Authenticator.getRemoteUserName (s : Authenticator) (now : Int)
    (r : IdentRequest) : IdentResult :=
  match r.tls with
  | some tlsState =>
    match tlsState.VerifiedChains with
    | [] => s.getRemoteUserNameAfterTLS now r
    | chain0 :: _ =>
      match chain0 with
      | [] => .panicked
      | cert0 :: _ => .result cert0.commonName none []
  | none => s.getRemoteUserNameAfterTLS now r

/-! Helper lemmas about the embedded definitions. -/

theorem string_length_lt_one_iff (s : String) : s.length < 1 ↔ s = "" := by
  rw [Nat.lt_one_iff]
  constructor
  · intro h
    cases s with
    | mk data =>
      cases data with
      | nil => rfl
      | cons c cs => simp [String.length] at h
  · intro h
    subst h
    rfl

theorem string_length_eq_zero_iff (s : String) : s.length = 0 ↔ s = "" := by
  rw [← Nat.lt_one_iff, string_length_lt_one_iff]

theorem JWTClaimsLoop_ok_of_mem {C : Type} (t : SignedJWT C) :
    ∀ (keys : List String) (acc : Option AuthError), t.key ∈ keys →
      JWTClaimsLoop t keys acc = .ok t.claims
  | [], _, h => absurd h (List.not_mem_nil _)
  | k :: rest, acc, h => by
    by_cases hk : k = t.key
    · simp [JWTClaimsLoop, joseClaims, hk]
    · have hm : t.key ∈ rest := by
        rcases List.mem_cons.mp h with h1 | h1
        · exact absurd h1.symm hk
        · exact h1
      simpa [JWTClaimsLoop, joseClaims, hk] using
        JWTClaimsLoop_ok_of_mem t rest (some .claimsVerifyError) hm

theorem JWTClaimsLoop_err_of_not_mem {C : Type} (t : SignedJWT C) :
    ∀ (k : String) (rest : List String) (acc : Option AuthError), t.key ∉ k :: rest →
      JWTClaimsLoop t (k :: rest) acc = .error .claimsVerifyError
  | k, [], _, h => by
    have hk : ¬ k = t.key := fun he => h (by rw [he]; exact List.mem_cons_self _ _)
    simp [JWTClaimsLoop, joseClaims, hk]
  | k, k2 :: rest2, acc, h => by
    have hk : ¬ k = t.key := fun he => h (by rw [he]; exact List.mem_cons_self _ _)
    have h2 : t.key ∉ k2 :: rest2 := fun hm => h (List.mem_cons_of_mem _ hm)
    simpa [JWTClaimsLoop, joseClaims, hk] using
      JWTClaimsLoop_err_of_not_mem t k2 rest2 (some .claimsVerifyError) h2

theorem JWTClaims_ok_of_mem {C : Type} (s : Authenticator) (t : SignedJWT C)
    (h : t.key ∈ s.sharedSecrets) : s.JWTClaims t = .ok t.claims :=
  JWTClaimsLoop_ok_of_mem t s.sharedSecrets none h

theorem JWTClaims_err_of_not_mem {C : Type} (s : Authenticator) (t : SignedJWT C)
    (h : t.key ∉ s.sharedSecrets) (hne : s.sharedSecrets ≠ []) :
    s.JWTClaims t = .error .claimsVerifyError := by
  cases hsec : s.sharedSecrets with
  | nil => exact absurd hsec hne
  | cons k rest =>
    have h' : t.key ∉ k :: rest := hsec ▸ h
    unfold Authenticator.JWTClaims
    rw [hsec]
    exact JWTClaimsLoop_err_of_not_mem t k rest none h'

theorem JWTClaims_nil {C : Type} (s : Authenticator) (t : SignedJWT C)
    (h : s.sharedSecrets = []) : s.JWTClaims t = .error .noValidKey := by
  simp [Authenticator.JWTClaims, h, JWTClaimsLoop]

theorem JWTClaimsLoop_ok_claims {C : Type} (t : SignedJWT C) :
    ∀ (keys : List String) (acc : Option AuthError) (c : C),
      JWTClaimsLoop t keys acc = .ok c → c = t.claims
  | [], none, c, h => by simp [JWTClaimsLoop] at h
  | [], some _, c, h => by simp [JWTClaimsLoop] at h
  | k :: rest, acc, c, h => by
    by_cases hk : k = t.key
    · simp [JWTClaimsLoop, joseClaims, hk] at h
      exact h.symm
    · simp only [JWTClaimsLoop, joseClaims, hk, if_neg, ite_false] at h
      exact JWTClaimsLoop_ok_claims t rest (some .claimsVerifyError) c h

theorem JWTClaims_ok_mem {C : Type} (s : Authenticator) (t : SignedJWT C) (c : C)
    (h : s.JWTClaims t = .ok c) : t.key ∈ s.sharedSecrets := by
  by_contra hnm
  cases hsec : s.sharedSecrets with
  | nil =>
    rw [JWTClaims_nil s t hsec] at h
    exact Except.noConfusion h
  | cons k rest =>
    rw [JWTClaims_err_of_not_mem s t hnm (by rw [hsec]; exact List.cons_ne_nil _ _)] at h
    exact Except.noConfusion h

theorem JWTClaims_ok_iff {C : Type} (s : Authenticator) (t : SignedJWT C) (c : C) :
    s.JWTClaims t = .ok c ↔ (t.key ∈ s.sharedSecrets ∧ c = t.claims) := by
  constructor
  · intro h
    exact ⟨JWTClaims_ok_mem s t c h, JWTClaimsLoop_ok_claims t s.sharedSecrets none c h⟩
  · rintro ⟨hm, rfl⟩
    exact JWTClaims_ok_of_mem s t hm

theorem validateUserCookieValue_accepts (s : Authenticator) (now : Int)
    (t : SignedJWT AuthNCookieJWT)
    (hkey : t.key ∈ s.sharedSecrets)
    (hiss : t.claims.Issuer = s.appName)
    (hsub : t.claims.Subject = "state:" ++ AuthCookieName)
    (hnbf : t.claims.NotBefore ≤ now)
    (hexp : now ≤ t.claims.Expiration)
    (huser : t.claims.Username ≠ "") :
    s.validateUserCookieValue now (.tok t) = (t.claims.Username, none) := by
  have hJ : s.JWTClaims t = .ok t.claims := JWTClaims_ok_of_mem s t hkey
  have hcond : ¬ (t.claims.Issuer ≠ s.appName ∨ t.claims.Subject ≠ "state:" ++ AuthCookieName ∨
      t.claims.NotBefore > now ∨ t.claims.Expiration < now) := by
    push_neg
    exact ⟨hiss, hsub, hnbf, hexp⟩
  have hlen : ¬ (t.claims.Username.length < 1) := by
    rw [string_length_lt_one_iff]
    exact huser
  simp [Authenticator.validateUserCookieValue, TokenString.isEmptyStr, parseSigned, hJ,
    hcond, hlen]

theorem validateUserCookieValue_rejects (s : Authenticator) (now : Int)
    (t : SignedJWT AuthNCookieJWT)
    (hcond : t.claims.Issuer ≠ s.appName ∨ t.claims.Subject ≠ "state:" ++ AuthCookieName ∨
      t.claims.NotBefore > now ∨ t.claims.Expiration < now) :
    s.validateUserCookieValue now (.tok t) = ("", none) := by
  cases hJ : s.JWTClaims t with
  | error e =>
    simp [Authenticator.validateUserCookieValue, TokenString.isEmptyStr, parseSigned, hJ]
  | ok c =>
    have hc : c = t.claims := JWTClaimsLoop_ok_claims t s.sharedSecrets none c hJ
    subst hc
    simp [Authenticator.validateUserCookieValue, TokenString.isEmptyStr, parseSigned, hJ, hcond]

theorem validateUserCookieValue_fatal (s : Authenticator) (now : Int)
    (t : SignedJWT AuthNCookieJWT)
    (hkey : t.key ∈ s.sharedSecrets)
    (hiss : t.claims.Issuer = s.appName)
    (hsub : t.claims.Subject = "state:" ++ AuthCookieName)
    (hnbf : t.claims.NotBefore ≤ now)
    (hexp : now ≤ t.claims.Expiration)
    (huser : t.claims.Username = "") :
    s.validateUserCookieValue now (.tok t) = ("", some .badCookieValueState) := by
  have hJ : s.JWTClaims t = .ok t.claims := JWTClaims_ok_of_mem s t hkey
  have hcond : ¬ (t.claims.Issuer ≠ s.appName ∨ t.claims.Subject ≠ "state:" ++ AuthCookieName ∨
      t.claims.NotBefore > now ∨ t.claims.Expiration < now) := by
    push_neg
    exact ⟨hiss, hsub, hnbf, hexp⟩
  have hlen : t.claims.Username.length < 1 := by
    rw [string_length_lt_one_iff]
    exact huser
  simp [Authenticator.validateUserCookieValue, TokenString.isEmptyStr, parseSigned, hJ,
    hcond, hlen]

theorem validateUserCookieValue_not_verified (s : Authenticator) (now : Int)
    (t : SignedJWT AuthNCookieJWT) (hnm : t.key ∉ s.sharedSecrets) :
    s.validateUserCookieValue now (.tok t) = ("", none) := by
  by_cases hnil : s.sharedSecrets = []
  · simp [Authenticator.validateUserCookieValue, TokenString.isEmptyStr, parseSigned,
      JWTClaims_nil s t hnil]
  · simp [Authenticator.validateUserCookieValue, TokenString.isEmptyStr, parseSigned,
      JWTClaims_err_of_not_mem s t hnm hnil]

theorem validateUserCookieValue_raw (s : Authenticator) (now : Int) (str : String) :
    s.validateUserCookieValue now (.raw str) = ("", none) := by
  simp [Authenticator.validateUserCookieValue, TokenString.isEmptyStr, parseSigned]

theorem validateUserCookieValue_trichotomy (s : Authenticator) (now : Int)
    (cv : TokenString AuthNCookieJWT) :
    s.validateUserCookieValue now cv = ("", none) ∨
    (∃ t, cv = .tok t ∧ t.key ∈ s.sharedSecrets ∧ t.claims.Issuer = s.appName ∧
      t.claims.Subject = "state:" ++ AuthCookieName ∧ t.claims.NotBefore ≤ now ∧
      now ≤ t.claims.Expiration ∧ t.claims.Username ≠ "" ∧
      s.validateUserCookieValue now cv = (t.claims.Username, none)) ∨
    (∃ t, cv = .tok t ∧ t.key ∈ s.sharedSecrets ∧ t.claims.Issuer = s.appName ∧
      t.claims.Subject = "state:" ++ AuthCookieName ∧ t.claims.NotBefore ≤ now ∧
      now ≤ t.claims.Expiration ∧ t.claims.Username = "" ∧
      s.validateUserCookieValue now cv = ("", some .badCookieValueState)) := by
  cases cv with
  | raw str => exact Or.inl (validateUserCookieValue_raw s now str)
  | tok t =>
    by_cases hm : t.key ∈ s.sharedSecrets
    · by_cases hcond : (t.claims.Issuer ≠ s.appName ∨
          t.claims.Subject ≠ "state:" ++ AuthCookieName ∨
          t.claims.NotBefore > now ∨ t.claims.Expiration < now)
      · exact Or.inl (validateUserCookieValue_rejects s now t hcond)
      · push_neg at hcond
        obtain ⟨hiss, hsub, hnbf, hexp⟩ := hcond
        by_cases huser : t.claims.Username = ""
        · exact Or.inr (Or.inr ⟨t, rfl, hm, hiss, hsub, hnbf, hexp, huser,
            validateUserCookieValue_fatal s now t hm hiss hsub hnbf hexp huser⟩)
        · exact Or.inr (Or.inl ⟨t, rfl, hm, hiss, hsub, hnbf, hexp, huser,
            validateUserCookieValue_accepts s now t hm hiss hsub hnbf hexp huser⟩)
    · exact Or.inl (validateUserCookieValue_not_verified s now t hm)

theorem getVerifyReturnStateJWT_accepts (s : Authenticator) (now : Int)
    (u : SignedJWT Oauth2StateJWT)
    (hkey : u.key ∈ s.sharedSecrets)
    (hiss : u.claims.Issuer = s.appName)
    (hsub : u.claims.Subject = "state:" ++ redirCookieName)
    (hnbf : u.claims.NotBefore ≤ now)
    (hexp : now ≤ u.claims.Expiration) :
    s.getVerifyReturnStateJWT now (.tok u) = .ok u.claims := by
  have hJ : s.JWTClaims u = .ok u.claims := JWTClaims_ok_of_mem s u hkey
  have hcond : ¬ (u.claims.Issuer ≠ s.appName ∨ u.claims.Subject ≠ "state:" ++ redirCookieName ∨
      u.claims.NotBefore > now ∨ u.claims.Expiration < now) := by
    push_neg
    exact ⟨hiss, hsub, hnbf, hexp⟩
  simp [Authenticator.getVerifyReturnStateJWT, TokenString.isEmptyStr, parseSigned, hJ, hcond]

theorem getVerifyReturnStateJWT_rejects (s : Authenticator) (now : Int)
    (u : SignedJWT Oauth2StateJWT)
    (hcond : u.claims.Issuer ≠ s.appName ∨ u.claims.Subject ≠ "state:" ++ redirCookieName ∨
      u.claims.NotBefore > now ∨ u.claims.Expiration < now) :
    ∀ c, s.getVerifyReturnStateJWT now (.tok u) ≠ .ok c := by
  intro c
  cases hJ : s.JWTClaims u with
  | error e =>
    simp [Authenticator.getVerifyReturnStateJWT, TokenString.isEmptyStr, parseSigned, hJ]
  | ok c2 =>
    have hc : c2 = u.claims := JWTClaimsLoop_ok_claims u s.sharedSecrets none c2 hJ
    subst hc
    simp [Authenticator.getVerifyReturnStateJWT, TokenString.isEmptyStr, parseSigned, hJ, hcond]

end Authn

/-! Claim theorems. -/

/-- C1: Session-cookie round-trip: for every non-empty username and every
secret set whose active secret (index 0) is a non-empty key, validating the
cookie value produced by issuing a session cookie for that username
(`genUserCookieValue` followed by `validateUserCookieValue`), evaluated
strictly within the token's validity window, returns exactly that username
and a nil error. -/
theorem C1_session_cookie_roundtrip (a : Authn.Authenticator)
    (username s0 : String) (rest : List String) (expires issueNow now : Int)
    (hsec : a.sharedSecrets = s0 :: rest) (hs0 : s0 ≠ "") (huser : username ≠ "")
    (h1 : issueNow ≤ now) (h2 : now < expires) :
    ∃ tok : Authn.SignedJWT Authn.AuthNCookieJWT,
      a.genUserCookieValue username expires issueNow = .ok tok ∧
      a.validateUserCookieValue now (.tok tok) = (username, none) := by
  have hs0len : ¬ (s0.length < 1) := by
    rw [Authn.string_length_lt_one_iff]
    exact hs0
  refine ⟨⟨⟨a.appName, "state:" ++ Authn.AuthCookieName, username, [a.appName],
      expires, issueNow, issueNow⟩, s0⟩, ?_, ?_⟩
  · simp [Authn.Authenticator.genUserCookieValue, hsec, hs0len]
  · exact Authn.validateUserCookieValue_accepts a now _
      (by rw [hsec]; exact List.mem_cons_self _ _) rfl rfl h1 (le_of_lt h2) huser

/-- C1 witness: concrete round trip for username `alice`, one secret `k1`,
issued at 100 expiring at 200, validated at 150. -/
theorem C1_session_cookie_roundtrip_witness :
    ∃ tok : Authn.SignedJWT Authn.AuthNCookieJWT,
      (Authn.Authenticator.mk ["k1"] "app" none).genUserCookieValue "alice" 200 100 = .ok tok ∧
      (Authn.Authenticator.mk ["k1"] "app" none).validateUserCookieValue 150 (.tok tok)
        = ("alice", none) :=
  C1_session_cookie_roundtrip (Authn.Authenticator.mk ["k1"] "app" none)
    "alice" "k1" [] 200 100 150 rfl (by decide) (by decide) (by decide) (by decide)

/-- C3 counterexample: a session token whose expiration claim equals the
current time is accepted, not rejected: the check is `Expiration < now`, so
at `now = Expiration = 100` validation returns the username with a nil
error. -/
theorem C3_expiry_boundary_counterexample :
    (Authn.Authenticator.mk ["k"] "app" none).validateUserCookieValue 100
      (.tok ⟨⟨"app", "state:" ++ Authn.AuthCookieName, "alice", ["app"], 100, 50, 50⟩, "k"⟩)
      = ("alice", none) := by decide

/-- C3 amended: the expiration boundary is inclusive, not exclusive: a
session token (and likewise a state token) with otherwise valid signature
and claims is accepted exactly when `NotBefore ≤ now ∧ now ≤ Expiration`;
in particular a token whose expiration equals the current time is still
accepted, and rejection starts only at `now > Expiration`. -/
theorem C3_expiry_boundary_amended (s : Authn.Authenticator) (now : Int)
    (t : Authn.SignedJWT Authn.AuthNCookieJWT) (u : Authn.SignedJWT Authn.Oauth2StateJWT)
    (htkey : t.key ∈ s.sharedSecrets)
    (htiss : t.claims.Issuer = s.appName)
    (htsub : t.claims.Subject = "state:" ++ Authn.AuthCookieName)
    (htuser : t.claims.Username ≠ "")
    (hukey : u.key ∈ s.sharedSecrets)
    (huiss : u.claims.Issuer = s.appName)
    (husub : u.claims.Subject = "state:" ++ Authn.redirCookieName) :
    (s.validateUserCookieValue now (.tok t) = (t.claims.Username, none) ↔
      t.claims.NotBefore ≤ now ∧ now ≤ t.claims.Expiration) ∧
    (s.getVerifyReturnStateJWT now (.tok u) = .ok u.claims ↔
      u.claims.NotBefore ≤ now ∧ now ≤ u.claims.Expiration) := by
  constructor
  · constructor
    · intro hres
      by_cases hnbf : t.claims.NotBefore ≤ now
      · by_cases hexp : now ≤ t.claims.Expiration
        · exact ⟨hnbf, hexp⟩
        · rw [Authn.validateUserCookieValue_rejects s now t
              (Or.inr (Or.inr (Or.inr (by omega))))] at hres
          exact absurd (congrArg Prod.fst hres).symm htuser
      · rw [Authn.validateUserCookieValue_rejects s now t
            (Or.inr (Or.inr (Or.inl (by omega))))] at hres
        exact absurd (congrArg Prod.fst hres).symm htuser
    · rintro ⟨hnbf, hexp⟩
      exact Authn.validateUserCookieValue_accepts s now t htkey htiss htsub hnbf hexp htuser
  · constructor
    · intro hres
      by_cases hnbf : u.claims.NotBefore ≤ now
      · by_cases hexp : now ≤ u.claims.Expiration
        · exact ⟨hnbf, hexp⟩
        · exact absurd hres
            (Authn.getVerifyReturnStateJWT_rejects s now u
              (Or.inr (Or.inr (Or.inr (by omega)))) u.claims)
      · exact absurd hres
          (Authn.getVerifyReturnStateJWT_rejects s now u
            (Or.inr (Or.inr (Or.inl (by omega)))) u.claims)
    · rintro ⟨hnbf, hexp⟩
      exact Authn.getVerifyReturnStateJWT_accepts s now u hukey huiss husub hnbf hexp

/-- C3 amended witness: concrete instantiation at `now = expiration = 100`
for both token kinds, where both are accepted. -/
theorem C3_expiry_boundary_amended_witness :
    ((Authn.Authenticator.mk ["k"] "app" none).validateUserCookieValue 100
        (.tok ⟨⟨"app", "state:" ++ Authn.AuthCookieName, "alice", ["app"], 100, 50, 50⟩, "k"⟩)
        = ("alice", none) ↔ ((50 : Int) ≤ 100 ∧ (100 : Int) ≤ 100)) ∧
    ((Authn.Authenticator.mk ["k"] "app" none).getVerifyReturnStateJWT 100
        (.tok ⟨⟨"app", "state:" ++ Authn.redirCookieName, ["app"], 100, 50, 50, "/orig"⟩, "k"⟩)
        = .ok ⟨"app", "state:" ++ Authn.redirCookieName, ["app"], 100, 50, 50, "/orig"⟩ ↔
      ((50 : Int) ≤ 100 ∧ (100 : Int) ≤ 100)) :=
  C3_expiry_boundary_amended (Authn.Authenticator.mk ["k"] "app" none) 100
    ⟨⟨"app", "state:" ++ Authn.AuthCookieName, "alice", ["app"], 100, 50, 50⟩, "k"⟩
    ⟨⟨"app", "state:" ++ Authn.redirCookieName, ["app"], 100, 50, 50, "/orig"⟩, "k"⟩
    (by decide) rfl rfl (by decide) (by decide) rfl rfl

/-- C4 counterexample: with one configured secret `k1` and a token signed
with `k2`, every secret fails, yet the returned error is the last
per-secret verification error, not the generic "No valid key found" error
(which is returned only when the secret list is empty). -/
theorem C4_uniform_failure_counterexample :
    (Authn.Authenticator.mk ["k1"] "app" none).JWTClaims
        (⟨⟨"app", "s", "alice", [], 0, 0, 0⟩, "k2"⟩ : Authn.SignedJWT Authn.AuthNCookieJWT)
      = .error .claimsVerifyError ∧
    Authn.AuthError.claimsVerifyError ≠ Authn.AuthError.noValidKey := by decide

/-- C4 amended: `JWTClaims` tries each configured secret in order and
succeeds (decoding into the destination) exactly when some configured
secret validates the token; when the secret list is non-empty and every
secret fails it returns the last secret's verification error, and it
returns the generic "No valid key found" error only when the secret list
is empty. -/
theorem C4_verification_failure_amended {C : Type} (s : Authn.Authenticator)
    (t : Authn.SignedJWT C) :
    (t.key ∈ s.sharedSecrets → s.JWTClaims t = .ok t.claims) ∧
    (t.key ∉ s.sharedSecrets → s.sharedSecrets ≠ [] →
      s.JWTClaims t = .error .claimsVerifyError) ∧
    (s.sharedSecrets = [] → s.JWTClaims t = .error .noValidKey) :=
  ⟨Authn.JWTClaims_ok_of_mem s t,
   Authn.JWTClaims_err_of_not_mem s t,
   Authn.JWTClaims_nil s t⟩

/-- C4 amended witness: with secrets `[k1, k2]` a token signed with `k2`
verifies successfully. -/
theorem C4_verification_failure_amended_witness :
    (Authn.Authenticator.mk ["k1", "k2"] "app" none).JWTClaims
        (⟨⟨"app", "s", "alice", [], 0, 0, 0⟩, "k2"⟩ : Authn.SignedJWT Authn.AuthNCookieJWT)
      = .ok ⟨"app", "s", "alice", [], 0, 0, 0⟩ :=
  (C4_verification_failure_amended (Authn.Authenticator.mk ["k1", "k2"] "app" none)
    (⟨⟨"app", "s", "alice", [], 0, 0, 0⟩, "k2"⟩ : Authn.SignedJWT Authn.AuthNCookieJWT)).1
    (by decide)

/-- C7: the derived username is the first non-empty field in the strict
order username, login, preferred_username, email; with username empty and
login `bob` the result is `bob`; with username and login empty and
preferred_username `carol` the result is `carol`; with all four empty the
result is the empty string. -/
theorem C7_username_derivation_precedence :
    (∀ u : Authn.OpenidConnectUserInfo,
      Authn.getUsernameFromUserinfo u =
        (if u.Username ≠ "" then u.Username
         else if u.Login ≠ "" then u.Login
         else if u.PreferredUsername ≠ "" then u.PreferredUsername
         else u.Email)) ∧
    Authn.getUsernameFromUserinfo ⟨"s", "n", "bob", "", "carol", "d@x.com"⟩ = "bob" ∧
    Authn.getUsernameFromUserinfo ⟨"s", "n", "", "", "carol", "d@x.com"⟩ = "carol" ∧
    Authn.getUsernameFromUserinfo ⟨"s", "n", "", "", "", ""⟩ = "" := by
  refine ⟨?_, by decide, by decide, by decide⟩
  intro u
  simp only [Authn.getUsernameFromUserinfo]
  by_cases h1 : u.Username = ""
  · by_cases h2 : u.Login = ""
    · by_cases h3 : u.PreferredUsername = ""
      · simp [h1, h2, h3, Authn.string_length_lt_one_iff, Authn.string_length_eq_zero_iff]
      · simp [h1, h2, h3, Authn.string_length_lt_one_iff, Authn.string_length_eq_zero_iff]
    · simp [h1, h2, Authn.string_length_lt_one_iff, Authn.string_length_eq_zero_iff]
  · simp [h1, Authn.string_length_lt_one_iff, Authn.string_length_eq_zero_iff]

/-- C9: with an empty secret list both sign operations panic on the
out-of-bounds index `sharedSecrets[0]` instead of reaching the intended
"no shared secrets" error branch; that branch is reached only when the
list is non-empty with an empty first key. -/
theorem C9_sign_without_secret :
    (Authn.Authenticator.mk [] "app" none).genUserCookieValue "alice" 200 100 = .panicked ∧
    (Authn.Authenticator.mk [] "app" none).generateValidStateString 100 "/x" = .panicked ∧
    (Authn.Authenticator.mk [""] "app" none).genUserCookieValue "alice" 200 100
      = .err .noSharedSecrets ∧
    (Authn.Authenticator.mk [""] "app" none).generateValidStateString 100 "/x"
      = .err .noSharedSecrets := by decide

/-- C2: three-way cookie-validation semantics: an empty, unparsable, or
signature-invalid cookie value yields `("", nil)`; a signature-valid token
failing the issuer/subject/not-before/expiration checks also yields
`("", nil)`; and a non-nil error is returned exactly when signature and
claim checks all pass but the embedded username is empty, in which case the
returned username is also empty. -/
theorem C2_threeway_cookie_validation (s : Authn.Authenticator) (now : Int)
    (cv : Authn.TokenString Authn.AuthNCookieJWT) :
    (∀ str, cv = .raw str → s.validateUserCookieValue now cv = ("", none)) ∧
    (∀ t, cv = .tok t → t.key ∉ s.sharedSecrets →
      s.validateUserCookieValue now cv = ("", none)) ∧
    (∀ t, cv = .tok t →
      (t.claims.Issuer ≠ s.appName ∨ t.claims.Subject ≠ "state:" ++ Authn.AuthCookieName ∨
       t.claims.NotBefore > now ∨ t.claims.Expiration < now) →
      s.validateUserCookieValue now cv = ("", none)) ∧
    ((s.validateUserCookieValue now cv).2 ≠ none ↔
      (∃ t, cv = .tok t ∧ t.key ∈ s.sharedSecrets ∧
        t.claims.Issuer = s.appName ∧ t.claims.Subject = "state:" ++ Authn.AuthCookieName ∧
        t.claims.NotBefore ≤ now ∧ now ≤ t.claims.Expiration ∧ t.claims.Username = "")) ∧
    (∀ e, (s.validateUserCookieValue now cv).2 = some e →
      (s.validateUserCookieValue now cv).1 = "") := by
  refine ⟨?_, ?_, ?_, ?_, ?_⟩
  · rintro str rfl
    exact Authn.validateUserCookieValue_raw s now str
  · rintro t rfl hnm
    exact Authn.validateUserCookieValue_not_verified s now t hnm
  · rintro t rfl hcond
    exact Authn.validateUserCookieValue_rejects s now t hcond
  · constructor
    · intro hne
      rcases Authn.validateUserCookieValue_trichotomy s now cv with h | h | h
      · rw [h] at hne
        exact absurd rfl hne
      · obtain ⟨t, _, _, _, _, _, _, _, hres⟩ := h
        rw [hres] at hne
        exact absurd rfl hne
      · obtain ⟨t, heq, hmem, hiss, hsub, hnbf, hexp, huser, _⟩ := h
        exact ⟨t, heq, hmem, hiss, hsub, hnbf, hexp, huser⟩
    · rintro ⟨t, rfl, hmem, hiss, hsub, hnbf, hexp, huser⟩
      rw [Authn.validateUserCookieValue_fatal s now t hmem hiss hsub hnbf hexp huser]
      simp
  · intro e he
    rcases Authn.validateUserCookieValue_trichotomy s now cv with h | h | h
    · rw [h]
    · obtain ⟨t, _, _, _, _, _, _, _, hres⟩ := h
      rw [hres] at he
      exact absurd he (by simp)
    · obtain ⟨t, _, _, _, _, _, _, _, hres⟩ := h
      rw [hres]

/-- C2 witness: a raw (unparsable) cookie value yields `("", nil)` at a
concrete authenticator. -/
theorem C2_threeway_cookie_validation_witness :
    (Authn.Authenticator.mk ["k"] "app" none).validateUserCookieValue 0 (.raw "garbage")
      = ("", none) :=
  (C2_threeway_cookie_validation (Authn.Authenticator.mk ["k"] "app" none) 0
    (.raw "garbage")).1 "garbage" rfl

/-- C5 counterexample: with every userinfo field empty the derived username
is `""`, yet the callback handler does not treat this as a failed login: it
sets a session cookie for the empty username and completes the 302 redirect
to the state token's return-URL as if the login succeeded. -/
theorem C5_empty_username_counterexample :
    (Authn.Authenticator.mk ["k"] "app" none).oauth2RedirectPathHandler 100
      ⟨"GET", "authcode",
        .tok ⟨⟨"app", "state:" ++ Authn.redirCookieName, ["app"], 200, 50, 50, "/orig"⟩, "k"⟩,
        "host"⟩
      ⟨.ok (some ⟨"tok123", "Bearer", 3600, ""⟩), .ok (some ⟨"sub", "name", "", "", "", ""⟩)⟩
      = (.redirect "/orig" "", [.tokenExchange, .userinfoFetch]) := by decide

/-- C5 amended: with all four userinfo fields empty the derived username is
the empty string, but the OAuth2 callback handler does NOT treat that
outcome as a failed login: whenever method, code, state, token exchange and
userinfo fetch all succeed, it issues a session cookie for the empty
identity and completes the login redirect as if successful (the failure
only surfaces later, when validating such a cookie returns a fatal error). -/
theorem C5_empty_username_amended (s : Authn.Authenticator) (now : Int)
    (r : Authn.CallbackRequest) (net : Authn.Network)
    (ui : Authn.OpenidConnectUserInfo) (stc : Authn.Oauth2StateJWT)
    (atk : Authn.AccessTokenResp) (s0 : String) (rest : List String)
    (hui1 : ui.Username = "") (hui2 : ui.Login = "")
    (hui3 : ui.PreferredUsername = "") (hui4 : ui.Email = "")
    (hm : r.method = "GET") (hcode : r.code ≠ "")
    (hstate : s.getVerifyReturnStateJWT now r.state = .ok stc)
    (hnet1 : net.tokenPost = .ok (some atk))
    (htt : atk.TokenType = "Bearer") (hta : atk.AccessToken ≠ "")
    (hnet2 : net.userinfoPost = .ok (some ui))
    (hsec : s.sharedSecrets = s0 :: rest) (hs0 : s0 ≠ "") :
    Authn.getUsernameFromUserinfo ui = "" ∧
    s.oauth2RedirectPathHandler now r net =
      (.redirect stc.ReturnURL "", [.tokenExchange, .userinfoFetch]) := by
  have hu : Authn.getUsernameFromUserinfo ui = "" := by
    simp [Authn.getUsernameFromUserinfo, hui1, hui2, hui3, hui4]
  have hcodel : ¬ (r.code.length < 1) := by
    rw [Authn.string_length_lt_one_iff]
    exact hcode
  have hlen2 : ¬ (atk.AccessToken.length < 1) := by
    rw [Authn.string_length_lt_one_iff]
    exact hta
  have hbearer : ¬ (atk.TokenType ≠ "Bearer" ∨ atk.AccessToken.length < 1) := by
    rintro (h | h)
    · exact h htt
    · exact hlen2 h
  have hs0l : ¬ (s0.length < 1) := by
    rw [Authn.string_length_lt_one_iff]
    exact hs0
  have hgen : s.genUserCookieValue "" (now + 3600 * Authn.cookieExpirationHours) now =
      .ok ⟨⟨s.appName, "state:" ++ Authn.AuthCookieName, "", [s.appName],
        now + 3600 * Authn.cookieExpirationHours, now, now⟩, s0⟩ := by
    simp [Authn.Authenticator.genUserCookieValue, hsec, hs0l]
  refine ⟨hu, ?_⟩
  simp [Authn.Authenticator.oauth2RedirectPathHandler, hm, hcodel, hstate, hnet1, hbearer,
    hnet2, hu, hgen]
  exact ⟨htt, by rw [Authn.string_length_eq_zero_iff]; exact hta⟩

/-- C5 amended witness: concrete instantiation of the amended claim. -/
theorem C5_empty_username_amended_witness :
    Authn.getUsernameFromUserinfo ⟨"sub", "name", "", "", "", ""⟩ = "" ∧
    (Authn.Authenticator.mk ["k"] "app" none).oauth2RedirectPathHandler 100
      ⟨"GET", "authcode",
        .tok ⟨⟨"app", "state:" ++ Authn.redirCookieName, ["app"], 200, 50, 50, "/orig"⟩, "k"⟩,
        "host"⟩
      ⟨.ok (some ⟨"tok123", "Bearer", 3600, ""⟩), .ok (some ⟨"sub", "name", "", "", "", ""⟩)⟩
      = (.redirect "/orig" "", [.tokenExchange, .userinfoFetch]) :=
  C5_empty_username_amended (Authn.Authenticator.mk ["k"] "app" none) 100
    ⟨"GET", "authcode",
      .tok ⟨⟨"app", "state:" ++ Authn.redirCookieName, ["app"], 200, 50, 50, "/orig"⟩, "k"⟩,
      "host"⟩
    ⟨.ok (some ⟨"tok123", "Bearer", 3600, ""⟩), .ok (some ⟨"sub", "name", "", "", "", ""⟩)⟩
    ⟨"sub", "name", "", "", "", ""⟩
    ⟨"app", "state:" ++ Authn.redirCookieName, ["app"], 200, 50, 50, "/orig"⟩
    ⟨"tok123", "Bearer", 3600, ""⟩ "k" []
    rfl rfl rfl rfl rfl (by decide) (by decide) rfl rfl (by decide) rfl rfl (by decide)

/-- C6: key-rotation tolerance: a token signed by an authenticator whose
active secret is `s0` validates under any authenticator (same application
name) whose secret list contains `s0` at any position, within the validity
window; and signing always uses the secret at index 0 (the produced token's
key is the head of the signer's secret list). -/
theorem C6_key_rotation (a b : Authn.Authenticator) (username s0 : String)
    (restA : List String) (expires issueNow now : Int)
    (hsecA : a.sharedSecrets = s0 :: restA) (hs0 : s0 ≠ "")
    (happ : b.appName = a.appName) (hmem : s0 ∈ b.sharedSecrets)
    (huser : username ≠ "") (h1 : issueNow ≤ now) (h2 : now < expires) :
    ∃ tok : Authn.SignedJWT Authn.AuthNCookieJWT,
      a.genUserCookieValue username expires issueNow = .ok tok ∧
      tok.key = s0 ∧
      b.validateUserCookieValue now (.tok tok) = (username, none) := by
  have hs0len : ¬ (s0.length < 1) := by
    rw [Authn.string_length_lt_one_iff]
    exact hs0
  refine ⟨⟨⟨a.appName, "state:" ++ Authn.AuthCookieName, username, [a.appName],
      expires, issueNow, issueNow⟩, s0⟩, ?_, rfl, ?_⟩
  · simp [Authn.Authenticator.genUserCookieValue, hsecA, hs0len]
  · exact Authn.validateUserCookieValue_accepts b now _ hmem happ.symm rfl h1
      (le_of_lt h2) huser

/-- C6 witness: a token signed with `k` (old active secret) still validates
after rotation, when `k` sits at index 1 behind a new active secret. -/
theorem C6_key_rotation_witness :
    ∃ tok : Authn.SignedJWT Authn.AuthNCookieJWT,
      (Authn.Authenticator.mk ["k"] "app" none).genUserCookieValue "alice" 200 100 = .ok tok ∧
      tok.key = "k" ∧
      (Authn.Authenticator.mk ["newkey", "k"] "app" none).validateUserCookieValue 150
        (.tok tok) = ("alice", none) :=
  C6_key_rotation (Authn.Authenticator.mk ["k"] "app" none)
    (Authn.Authenticator.mk ["newkey", "k"] "app" none)
    "alice" "k" [] 200 100 150 rfl (by decide) rfl (by decide) (by decide)
    (by decide) (by decide)

/-- C8: callback gating order: the handler answers 405 to any non-GET
method, 401 (a client error) to a missing `code` parameter, 401 to a
missing or invalid `state`, all without performing any network call; and
whenever it performed any network call at all, the state token had
validated successfully. -/
theorem C8_callback_gating (s : Authn.Authenticator) (now : Int)
    (r : Authn.CallbackRequest) (net : Authn.Network) :
    (r.method ≠ "GET" → s.oauth2RedirectPathHandler now r net = (.httpError 405, [])) ∧
    (r.method = "GET" → r.code = "" →
      s.oauth2RedirectPathHandler now r net = (.httpError 401, [])) ∧
    (∀ e, r.method = "GET" → r.code ≠ "" →
      s.getVerifyReturnStateJWT now r.state = .error e →
      s.oauth2RedirectPathHandler now r net = (.httpError 401, [])) ∧
    ((s.oauth2RedirectPathHandler now r net).2 ≠ [] →
      ∃ stc, s.getVerifyReturnStateJWT now r.state = .ok stc) := by
  refine ⟨?_, ?_, ?_, ?_⟩
  · intro hm
    simp [Authn.Authenticator.oauth2RedirectPathHandler, hm]
  · intro hm hc
    simp [Authn.Authenticator.oauth2RedirectPathHandler, hm, hc]
  · intro e hm hc hst
    have hcl : ¬ (r.code.length < 1) := by
      rw [Authn.string_length_lt_one_iff]
      exact hc
    simp [Authn.Authenticator.oauth2RedirectPathHandler, hm, hcl, hst]
  · intro htr
    by_cases hm : r.method = "GET"
    · by_cases hc : r.code.length < 1
      · exfalso
        apply htr
        simp [Authn.Authenticator.oauth2RedirectPathHandler, hm, hc]
      · cases hst : s.getVerifyReturnStateJWT now r.state with
        | error e =>
          exfalso
          apply htr
          simp [Authn.Authenticator.oauth2RedirectPathHandler, hm, hc, hst]
        | ok stc => exact ⟨stc, rfl⟩
    · exfalso
      apply htr
      simp [Authn.Authenticator.oauth2RedirectPathHandler, hm]

/-- C8 witness: a POST request is answered 405 with no network call. -/
theorem C8_callback_gating_witness :
    (Authn.Authenticator.mk ["k"] "app" none).oauth2RedirectPathHandler 0
      ⟨"POST", "c", .raw "", "host"⟩ ⟨.error (), .error ()⟩ = (.httpError 405, []) :=
  (C8_callback_gating (Authn.Authenticator.mk ["k"] "app" none) 0
    ⟨"POST", "c", .raw "", "host"⟩ ⟨.error (), .error ()⟩).1 (by decide)

/-- C10: TLS identity is returned unchecked: when the request's TLS state
carries a verified chain (whose leaf exists), `getRemoteUserName` returns
the leaf certificate's subject common name with a nil error, writes no
response, and its result does not depend on any cookie — even when that
common name is the empty string. -/
theorem C10_tls_identity_unchecked (s : Authn.Authenticator) (now : Int)
    (r : Authn.IdentRequest) (cert0 : Authn.Cert) (chain : List Authn.Cert)
    (restChains : List (List Authn.Cert))
    (htls : r.tls = some ⟨(cert0 :: chain) :: restChains⟩) :
    s.getRemoteUserName now r = .result cert0.commonName none [] ∧
    (∀ c c', s.getRemoteUserName now { r with cookie := c } =
      s.getRemoteUserName now { r with cookie := c' }) := by
  have hmain : ∀ c, s.getRemoteUserName now { r with cookie := c } =
      .result cert0.commonName none [] := by
    intro c
    simp [Authn.Authenticator.getRemoteUserName, htls]
  constructor
  · exact hmain r.cookie
  · intro c c'
    rw [hmain c, hmain c']

/-- C10 witness: a verified chain whose leaf has an empty common name
yields the authenticated empty identity with no error and no writes. -/
theorem C10_tls_identity_unchecked_witness :
    (Authn.Authenticator.mk ["k"] "app" none).getRemoteUserName 0
      ⟨some ⟨[[⟨""⟩]]⟩, none, "/p"⟩ = .result "" none [] :=
  (C10_tls_identity_unchecked (Authn.Authenticator.mk ["k"] "app" none) 0
    ⟨some ⟨[[⟨""⟩]]⟩, none, "/p"⟩ ⟨""⟩ [] [] rfl).1
